import Mathlib

/-!
Verification of the CFW AI-itinerary worker (`src/src/index.js`).

The development shallowly embeds the worker's generation-and-status
pipeline: a JSON value model (JavaScript values reaching the handlers),
the Zod schemas `ActivitySchema` / `DaySchema` / `ItinerarySchema`, the
retry loop `callOpenAI`, the background pipeline `processItinerary`, and
the request router `fetch`.  JavaScript numbers are modelled as `Rat`
(no NaN/Infinity arise in the claims), timestamps as `Nat`, and the
Firestore document store as an association list keyed by job id where a
`set` prepends (later bindings shadow earlier ones, matching overwrite)
and an `update` merges fields into the current record.
-/

namespace CFW

/-- JavaScript/JSON values as they reach the worker: `request.json()`
results, OpenAI responses, and Firestore document data. -/
inductive JSON where
  | null
  | bool (b : Bool)
  | num (q : Rat)
  | str (s : String)
  | arr (elems : List JSON)
  | obj (fields : List (String × JSON))
  deriving Repr, Inhabited

/-- Property access `v.k` on a JavaScript value: objects look up the key
(`none` models `undefined`), non-objects yield `undefined` for every key.
(Access on `null` throws in JavaScript; the router model handles that
case separately before calling this.) -/
def JSON.getField (v : JSON) (k : String) : Option JSON :=
  match v with
  | .obj fields => fields.lookup k
  | _ => none

/-- JavaScript truthiness of an optional value, as used by
`!body.destination || !body.durationDays`: `undefined`, `null`, `false`,
`0` and `""` are falsy. -/
def truthy : Option JSON → Bool
  | none => false
  | some .null => false
  | some (.bool b) => b
  | some (.num q) => q != 0
  | some (.str s) => s != ""
  | some (.arr _) => true
  | some (.obj _) => true

/-! ### Zod schemas (lines 4–24 of `index.js`) -/

/-- A parsed `ActivitySchema` value: `{ time: z.string(), description:
z.string(), location: z.string() }`.  Zod's `z.string()` places no
non-emptiness constraint on the strings. -/
structure Activity where
  time : String
  description : String
  location : String
  deriving Repr, DecidableEq

/-- A parsed `DaySchema` value: `{ day: z.number(), theme: z.string(),
activities: z.array(ActivitySchema) }`.  The array of activities has no
length constraint. -/
structure DayRec where
  day : Rat
  theme : String
  activities : List Activity
  deriving Repr, DecidableEq

/-- `ActivitySchema.parse` on a JSON value: succeeds exactly when the
value is an object whose `time`, `description` and `location` fields are
present and are strings (Zod strips unrecognised keys). -/
def parseActivity (j : JSON) : Option Activity :=
  match j.getField "time", j.getField "description", j.getField "location" with
  | some (.str t), some (.str d), some (.str l) => some ⟨t, d, l⟩
  | _, _, _ => none

/-- `DaySchema.parse` on a JSON value. -/
def parseDay (j : JSON) : Option DayRec :=
  match j.getField "day", j.getField "theme", j.getField "activities" with
  | some (.num n), some (.str th), some (.arr acts) =>
      (acts.mapM parseActivity).map (fun as => ⟨n, th, as⟩)
  | _, _, _ => none

/-- `z.array(DaySchema).parse` on the (possibly missing) `itinerary`
field of the model's response: `undefined` or a non-array is rejected. -/
def parseItineraryField : Option JSON → Option (List DayRec)
  | some (.arr ds) => ds.mapM parseDay
  | _ => none

/-- Re-serialisation of a parsed activity, the shape Zod's `.parse`
returns and the pipeline stores. -/
def activityToJSON (a : Activity) : JSON :=
  .obj [("time", .str a.time), ("description", .str a.description),
        ("location", .str a.location)]

/-- Re-serialisation of a parsed day record. -/
def dayToJSON (d : DayRec) : JSON :=
  .obj [("day", .num d.day), ("theme", .str d.theme),
        ("activities", .arr (d.activities.map activityToJSON))]

/-- Re-serialisation of a parsed itinerary. -/
def daysToJSON (ds : List DayRec) : JSON :=
  .arr (ds.map dayToJSON)

/-- `itinerary.length` on a stored itinerary value (the spec compares
this with `durationDays`). -/
def jsonArrLength : JSON → Nat
  | .arr xs => xs.length
  | _ => 0

/-! ### The retry loop `callOpenAI` (lines 76–133) -/

/-- Outcome of one attempt's interaction with the OpenAI endpoint, as
the code distinguishes them: a non-success HTTP status (with the
optional `errorData.error?.message`), a success response with no
`choices[0]?.message?.content`, content that fails `JSON.parse`, or
content that parses to a JSON value. -/
inductive FetchOutcome where
  | httpError (status : Nat) (errMsg : Option String)
  | noContent
  | badJSON (content : String)
  | parsed (j : JSON)
  deriving Repr

/-- The body of one loop iteration of `callOpenAI`: either the parsed
JSON, or the message of the `Error` the iteration throws. -/
def attemptResult : FetchOutcome → Except String JSON
  | .httpError status errMsg =>
      .error ("OpenAI API error: " ++ toString status ++ " - " ++
        errMsg.getD "Unknown error")
  | .noContent => .error "No content received from OpenAI"
  | .badJSON content =>
      .error ("Invalid JSON response from OpenAI: " ++ content.take 200 ++ "...")
  | .parsed j => .ok j

/-- Result of a whole `callOpenAI` call: the returned value or the
propagated error, how many attempts ran, and the backoff delays (in
seconds; the code sleeps `Math.pow(2, attempt) * 1000` milliseconds)
in the order they were awaited. -/
structure CallResult where
  result : Except String JSON
  attemptsMade : Nat
  delaysSec : List Nat
  deriving Repr

/-- The `for (let attempt = 1; attempt <= retries; attempt++)` loop,
from a given attempt number with the remaining iterations as fuel.
`oracle n` is the outside world's response to attempt `n`. -/
def callOpenAIAux (oracle : Nat → FetchOutcome) (retries : Nat) :
    Nat → Nat → CallResult
  | _, 0 =>
      -- the loop exits without returning; `callOpenAI` yields `undefined`
      -- (never reached for `retries ≥ 1`)
      ⟨.error "", 0, []⟩
  | attempt, fuel + 1 =>
      match attemptResult (oracle attempt) with
      | .ok j => ⟨.ok j, 1, []⟩
      | .error e =>
          if attempt == retries then ⟨.error e, 1, []⟩
          else
            let rest := callOpenAIAux oracle retries (attempt + 1) fuel
            ⟨rest.result, rest.attemptsMade + 1, 2 ^ attempt :: rest.delaysSec⟩

/-- `callOpenAI(prompt, env, retries = 3)`: attempts start at 1. -/
def callOpenAI (oracle : Nat → FetchOutcome) (retries : Nat := 3) : CallResult :=
  callOpenAIAux oracle retries 1 retries

/-! ### Job records and the pipeline `processItinerary` (lines 135–174) -/

/-- The job `status` enumeration. -/
inductive Status where
  | processing
  | completed
  | failed
  deriving Repr, DecidableEq

/-- The Firestore document for one job.  `destination` is stored as the
JavaScript value the client sent (the router only checks truthiness);
`itinerary` is stored as a JSON value (`[]` at creation, the Zod-parsed
array on success).  `updatedAt` is absent at creation and written by the
pipeline's `processing` update; timestamps are the server times of the
writes that set them. -/
structure JobRecord where
  status : Status
  destination : JSON
  durationDays : Rat
  createdAt : Nat
  updatedAt : Option Nat
  completedAt : Option Nat
  itinerary : JSON
  error : Option String
  deriving Repr

/-- The document written by `POST /generate` (lines 233–241):
`status: 'processing'`, the request's fields, `createdAt` server
timestamp, `completedAt: null`, `itinerary: []`, `error: null`. -/
def initialRecord (destination : JSON) (durationDays : Rat) (now : Nat) : JobRecord :=
  { status := .processing
    destination := destination
    durationDays := durationDays
    createdAt := now
    updatedAt := none
    completedAt := none
    itinerary := .arr []
    error := none }

/-- `ItinerarySchema.parse(itineraryData)` on the object the pipeline
builds.  Of its fields, `status: 'completed'` is always in the enum,
`durationDays` is always a number, `createdAt`/`completedAt` pass
`z.any()`, and `error: null` passes `z.string().nullable()`; the checks
that can fail are `destination: z.string()` and
`itinerary: z.array(DaySchema)` (the latter fails when `aiResponse` has
no `itinerary` field or it is not a structurally valid array of days).
Zod's error messages are abstracted to fixed descriptions; like Zod's
real messages they are non-empty. -/
def validateItineraryData (destination : JSON) (aiResponse : JSON) :
    Except String (String × List DayRec) :=
  match destination with
  | .str d =>
      match parseItineraryField (aiResponse.getField "itinerary") with
      | some days => .ok (d, days)
      | none => .error "Zod validation error: itinerary: invalid day/activity shape"
  | _ => .error "Zod validation error: destination: Expected string"

/-- One run of `processItinerary` over a job's current record, returning
the record states after each Firestore `update` in order (each `update`
merges its fields into the current document).  `tUpd` is the server time
of the initial `processing` update and `tDone` the server time of the
terminal update; `oracle` drives the OpenAI attempts.  On success the
terminal update writes the whole validated `itineraryData` object —
including a fresh `createdAt` server timestamp — and on failure it
writes only `status`, `completedAt` and `error`. -/
def processItinerary (oracle : Nat → FetchOutcome) (tUpd tDone : Nat)
    (destination : JSON) (durationDays : Rat) (rec : JobRecord) :
    List JobRecord :=
  let r1 : JobRecord := { rec with status := .processing, updatedAt := some tUpd }
  match (callOpenAI oracle).result with
  | .error e =>
      [r1, { r1 with status := .failed, completedAt := some tDone, error := some e }]
  | .ok aiResponse =>
      match validateItineraryData destination aiResponse with
      | .error e =>
          [r1, { r1 with status := .failed, completedAt := some tDone, error := some e }]
      | .ok (d, days) =>
          [r1, { r1 with
                   status := .completed
                   destination := .str d
                   durationDays := durationDays
                   createdAt := tDone
                   completedAt := some tDone
                   itinerary := daysToJSON days
                   error := none }]

/-- The record left in the store after the pipeline run. -/
def pipelineFinal (oracle : Nat → FetchOutcome) (tUpd tDone : Nat)
    (destination : JSON) (durationDays : Rat) (rec : JobRecord) : JobRecord :=
  (processItinerary oracle tUpd tDone destination durationDays rec).getLastD rec

/-! ### The request router `fetch` (lines 176–355) -/

/-- HTTP methods the router distinguishes. -/
inductive Method where
  | GET
  | POST
  | OPTIONS
  | other
  deriving Repr, DecidableEq

/-- An incoming request: method, URL path, and the result of
`request.json()` — `none` models a body that is not valid JSON, so that
`await request.json()` throws (only the `POST /generate` branch reads
the body). -/
structure Request where
  method : Method
  pathname : String
  body : Option JSON
  deriving Repr

/-- An HTTP response: status code and JSON body (`none` for the
body-less `OPTIONS` response).  All responses additionally carry the
same fixed CORS headers, which no claim distinguishes, so headers are
not modelled. -/
structure HttpResponse where
  status : Nat
  body : Option JSON
  deriving Repr

/-- JavaScript `String.prototype.split(sep)` for a one-character
separator, implemented structurally over the character list (so it
evaluates in the kernel): `''.split('/') = ['']`,
`'/status/'.split('/') = ['', 'status', '']`. -/
def splitAux (sep : Char) : List Char → List Char → List String
  | [], acc => [String.mk acc.reverse]
  | c :: cs, acc =>
      if c == sep then String.mk acc.reverse :: splitAux sep cs []
      else splitAux sep cs (c :: acc)

/-- `s.split(sep)` on a string. -/
def jsSplit (s : String) (sep : Char) : List String :=
  splitAux sep s.data []

/-- JavaScript `s.startsWith(pre)`, as a character-list prefix test. -/
def jsStartsWith (s pre : String) : Bool :=
  pre.data.isPrefixOf s.data

/-- `{"error": msg}` response bodies. -/
def errorBody (msg : String) : JSON := .obj [("error", .str msg)]

/-- The top-level catch's response (lines 341–352). -/
def internalErrorResponse : HttpResponse :=
  ⟨500, some (errorBody "Internal server error")⟩

/-- The Firestore collection: job id to document, later bindings
shadowing earlier ones (so a `set` under an existing id overwrites). -/
abbrev Store := List (String × JobRecord)

/-- `generateJobId()`: `'job_' + Date.now() + '_' +` nine random
base-36 characters. -/
def generateJobId (now : Nat) (rand : String) : String :=
  "job_" ++ toString now ++ "_" ++ rand

/-- Serialisation of a stored record for the status handler's 200
response (`JSON.stringify(docSnap.data())`): every field present in the
document, `null` for null `completedAt`/`error`, `updatedAt` only once
the pipeline has written it. -/
def recordToJSON (r : JobRecord) : JSON :=
  .obj ([("status", .str (match r.status with
            | .processing => "processing"
            | .completed => "completed"
            | .failed => "failed")),
         ("destination", r.destination),
         ("durationDays", .num r.durationDays),
         ("createdAt", .num r.createdAt)] ++
        (match r.updatedAt with
         | some t => [("updatedAt", JSON.num t)]
         | none => []) ++
        [("completedAt", match r.completedAt with
            | some t => .num t
            | none => .null),
         ("itinerary", r.itinerary),
         ("error", match r.error with
            | some e => .str e
            | none => .null)])

/-- Result of the router on one request: the HTTP response, the store
after any synchronous write, and the arguments handed to the detached
pipeline via `ctx.waitUntil` (if any). -/
structure RouterResult where
  response : HttpResponse
  store : Store
  scheduled : Option (String × JSON × Rat)
  deriving Repr

/-- The `POST /generate` branch (lines 198–254), given the parsed body.
A `null` body makes `body.destination` throw, which the top-level catch
turns into the 500 response.  Field validation follows the code:
`!body.destination || !body.durationDays` then
`typeof body.durationDays !== 'number' || < 1 || > 30`. -/
def handleGenerate (b : JSON) (store : Store) (now : Nat) (rand : String) :
    RouterResult :=
  match b with
  | .null => ⟨internalErrorResponse, store, none⟩
  | _ =>
      let dOpt := b.getField "destination"
      let ddOpt := b.getField "durationDays"
      if !(truthy dOpt) || !(truthy ddOpt) then
        ⟨⟨400, some (errorBody "Missing required fields: destination and durationDays")⟩,
         store, none⟩
      else
        match ddOpt with
        | some (.num q) =>
            if q < 1 ∨ q > 30 then
              ⟨⟨400, some (errorBody "durationDays must be a number between 1 and 30")⟩,
               store, none⟩
            else
              let jobId := generateJobId now rand
              let rec0 := initialRecord (dOpt.getD .null) q now
              ⟨⟨202, some (.obj [("jobId", .str jobId),
                                 ("message", .str "Itinerary generation started")])⟩,
               (jobId, rec0) :: store,
               some (jobId, dOpt.getD .null, q)⟩
        | _ =>
            ⟨⟨400, some (errorBody "durationDays must be a number between 1 and 30")⟩,
             store, none⟩

/-- The `GET /status/...` branch (lines 257–313): reads
`url.pathname.split('/')[2]`; an empty or absent segment is falsy and
returns 400.  `statusFetchFails` models any throw inside the handler's
inner try (Firestore init or the document read), which its own catch
answers with 500 `Failed to fetch job status`. -/
def handleStatus (pathname : String) (store : Store) (statusFetchFails : Bool) :
    HttpResponse :=
  let jobId := (jsSplit pathname '/').getD 2 ""
  if jobId == "" then
    ⟨400, some (errorBody "Job ID is required")⟩
  else if statusFetchFails then
    ⟨500, some (errorBody "Failed to fetch job status")⟩
  else
    match store.lookup jobId with
    | none => ⟨404, some (errorBody "Job not found")⟩
    | some r => ⟨200, some (recordToJSON r)⟩

/-- The `GET /` description body (lines 315–329). -/
def apiInfoBody : JSON :=
  .obj [("message", .str "AI Itinerary Generator API"),
        ("endpoints", .obj
          [("POST /generate", .str "Generate a new itinerary"),
           ("GET /status/\x7bjobId\x7d", .str "Check itinerary status")])]

/-- The exported `fetch` handler (lines 176–355): `OPTIONS` first, then
dispatch by method and path inside the top-level try, with unmatched
requests answered 404.  `now`/`rand` feed `Date.now()`/`Math.random()`
for job-id generation, and `statusFetchFails` drives the status
handler's inner catch. -/
def handleFetch (req : Request) (store : Store) (now : Nat) (rand : String)
    (statusFetchFails : Bool) : RouterResult :=
  if req.method == .OPTIONS then
    ⟨⟨200, none⟩, store, none⟩
  else if req.method == .POST && req.pathname == "/generate" then
    match req.body with
    | none => ⟨internalErrorResponse, store, none⟩
    | some b => handleGenerate b store now rand
  else if req.method == .GET && jsStartsWith req.pathname "/status/" then
    ⟨handleStatus req.pathname store statusFetchFails, store, none⟩
  else if req.method == .GET && req.pathname == "/" then
    ⟨⟨200, some apiInfoBody⟩, store, none⟩
  else
    ⟨⟨404, some (errorBody "Endpoint not found")⟩, store, none⟩

/-! ### Helper lemmas -/

theorem append_ne_empty_left (s t : String) (h : s ≠ "") : s ++ t ≠ "" := by
  intro hc
  apply h
  have hdata := congrArg String.data hc
  simp [String.append] at hdata
  exact String.ext hdata.1

theorem attemptResult_error_ne_empty (o : FetchOutcome) (e : String)
    (h : attemptResult o = .error e) : e ≠ "" := by
  cases o with
  | httpError status errMsg =>
      simp [attemptResult] at h
      subst h
      exact append_ne_empty_left _ _ (append_ne_empty_left _ _
        (append_ne_empty_left _ _ (by decide)))
  | noContent =>
      simp [attemptResult] at h
      subst h
      decide
  | badJSON content =>
      simp [attemptResult] at h
      subst h
      exact append_ne_empty_left _ _ (append_ne_empty_left _ _ (by decide))
  | parsed j => simp [attemptResult] at h

/-- Unfolding of the three-attempt loop of `callOpenAI` (default
`retries = 3`). -/
theorem callOpenAI_eq (oracle : Nat → FetchOutcome) :
    callOpenAI oracle =
      match attemptResult (oracle 1) with
      | .ok j => ⟨.ok j, 1, []⟩
      | .error _ =>
          match attemptResult (oracle 2) with
          | .ok j => ⟨.ok j, 2, [2]⟩
          | .error _ =>
              match attemptResult (oracle 3) with
              | .ok j => ⟨.ok j, 3, [2, 4]⟩
              | .error e => ⟨.error e, 3, [2, 4]⟩ := by
  show callOpenAIAux oracle 3 1 3 = _
  cases h1 : attemptResult (oracle 1) with
  | error e1 =>
      cases h2 : attemptResult (oracle 2) with
      | error e2 =>
          cases h3 : attemptResult (oracle 3) with
          | error e3 => simp [callOpenAIAux, h1, h2, h3]
          | ok j => simp [callOpenAIAux, h1, h2, h3]
      | ok j => simp [callOpenAIAux, h1, h2]
  | ok j => simp [callOpenAIAux, h1]

theorem callOpenAI_error_ne_empty (oracle : Nat → FetchOutcome) (e : String)
    (h : (callOpenAI oracle).result = .error e) : e ≠ "" := by
  rw [callOpenAI_eq] at h
  cases h1 : attemptResult (oracle 1) with
  | error e1 =>
      cases h2 : attemptResult (oracle 2) with
      | error e2 =>
          cases h3 : attemptResult (oracle 3) with
          | error e3 =>
              rw [h1, h2, h3] at h
              simp at h
              exact h ▸ attemptResult_error_ne_empty _ _ h3
          | ok j => rw [h1, h2, h3] at h; simp at h
      | ok j => rw [h1, h2] at h; simp at h
  | ok j => rw [h1] at h; simp at h

theorem pipelineFinal_of_error (oracle : Nat → FetchOutcome) (tUpd tDone : Nat)
    (dest : JSON) (q : Rat) (rec : JobRecord) (e : String)
    (h : (callOpenAI oracle).result = .error e) :
    pipelineFinal oracle tUpd tDone dest q rec =
      { rec with status := .failed, updatedAt := some tUpd,
                 completedAt := some tDone, error := some e } := by
  simp [pipelineFinal, processItinerary, h]

theorem pipelineFinal_of_invalid (oracle : Nat → FetchOutcome) (tUpd tDone : Nat)
    (dest : JSON) (q : Rat) (rec : JobRecord) (ai : JSON) (e : String)
    (hok : (callOpenAI oracle).result = .ok ai)
    (hv : validateItineraryData dest ai = .error e) :
    pipelineFinal oracle tUpd tDone dest q rec =
      { rec with status := .failed, updatedAt := some tUpd,
                 completedAt := some tDone, error := some e } := by
  simp [pipelineFinal, processItinerary, hok, hv]

theorem pipelineFinal_of_valid (oracle : Nat → FetchOutcome) (tUpd tDone : Nat)
    (dest : JSON) (q : Rat) (rec : JobRecord) (ai : JSON) (d : String)
    (days : List DayRec)
    (hok : (callOpenAI oracle).result = .ok ai)
    (hv : validateItineraryData dest ai = .ok (d, days)) :
    pipelineFinal oracle tUpd tDone dest q rec =
      { rec with status := .completed, updatedAt := some tUpd,
                 destination := .str d, durationDays := q, createdAt := tDone,
                 completedAt := some tDone, itinerary := daysToJSON days,
                 error := none } := by
  simp [pipelineFinal, processItinerary, hok, hv]

theorem validate_error_ne_empty (dest ai : JSON) (e : String)
    (h : validateItineraryData dest ai = .error e) : e ≠ "" := by
  cases dest with
  | str d =>
      cases hp : parseItineraryField (ai.getField "itinerary") with
      | none =>
          simp [validateItineraryData, hp] at h
          subst h
          decide
      | some days => simp [validateItineraryData, hp] at h
  | null => simp [validateItineraryData] at h; subst h; decide
  | bool b => simp [validateItineraryData] at h; subst h; decide
  | num q => simp [validateItineraryData] at h; subst h; decide
  | arr xs => simp [validateItineraryData] at h; subst h; decide
  | obj fs => simp [validateItineraryData] at h; subst h; decide

theorem handleFetch_generate (b : Option JSON) (store : Store) (now : Nat)
    (rand : String) (flag : Bool) :
    handleFetch ⟨.POST, "/generate", b⟩ store now rand flag =
      match b with
      | none => ⟨internalErrorResponse, store, none⟩
      | some b => handleGenerate b store now rand := by
  rfl

theorem handleFetch_status_route (p : String) (bd : Option JSON) (store : Store)
    (now : Nat) (rand : String) (flag : Bool)
    (hsw : jsStartsWith p "/status/" = true) :
    handleFetch ⟨.GET, p, bd⟩ store now rand flag =
      ⟨handleStatus p store flag, store, none⟩ := by
  simp [handleFetch, hsw,
    show (Method.GET == Method.OPTIONS) = false from rfl,
    show (Method.GET == Method.POST) = false from rfl,
    show (Method.GET == Method.GET) = true from rfl]

theorem validate_ok_destination (dest ai : JSON) (d : String) (days : List DayRec)
    (hv : validateItineraryData dest ai = .ok (d, days)) : dest = .str d := by
  cases dest with
  | str s =>
      cases hp : parseItineraryField (ai.getField "itinerary") with
      | none => simp [validateItineraryData, hp] at hv
      | some ds =>
          simp [validateItineraryData, hp] at hv
          exact congrArg JSON.str hv.1
  | null => simp [validateItineraryData] at hv
  | bool b => simp [validateItineraryData] at hv
  | num q => simp [validateItineraryData] at hv
  | arr xs => simp [validateItineraryData] at hv
  | obj fs => simp [validateItineraryData] at hv

/-! ### Claims -/

/-- C1 counterexample: with every attempt failing (missing response
content), `callOpenAI` propagates the final attempt's error after 3
attempts, but the backoff delays actually awaited are 2 and 4 seconds —
not the claimed 2, 4 and 8: the loop throws immediately on the final
attempt's failure without sleeping `2^3` seconds. -/
theorem c1_delays_counterexample :
    (callOpenAI (fun _ => FetchOutcome.noContent)).attemptsMade = 3 ∧
    (callOpenAI (fun _ => FetchOutcome.noContent)).result =
      .error "No content received from OpenAI" ∧
    (callOpenAI (fun _ => FetchOutcome.noContent)).delaysSec = [2, 4] ∧
    ([2, 4] : List Nat) ≠ [2, 4, 8] :=
  ⟨rfl, rfl, rfl, by decide⟩

/-- C1 (amended): `callOpenAI` makes up to 3 attempts, returns the
parsed JSON at the first successful attempt with no further attempts,
and waits `2^attempt` seconds after each failed non-final attempt;
after 3 consecutive failing attempts the final attempt's error
propagates with only the delays 2 and 4 seconds applied (no delay after
the final attempt), and the pipeline then terminates the job as
`failed`. -/
theorem c1_retry_policy (oracle : Nat → FetchOutcome) :
    (∀ j, attemptResult (oracle 1) = .ok j →
        callOpenAI oracle = ⟨.ok j, 1, []⟩) ∧
    (∀ e₁ j, attemptResult (oracle 1) = .error e₁ →
        attemptResult (oracle 2) = .ok j →
        callOpenAI oracle = ⟨.ok j, 2, [2]⟩) ∧
    (∀ e₁ e₂ e₃, attemptResult (oracle 1) = .error e₁ →
        attemptResult (oracle 2) = .error e₂ →
        attemptResult (oracle 3) = .error e₃ →
        callOpenAI oracle = ⟨.error e₃, 3, [2, 4]⟩ ∧
        ∀ tUpd tDone dest q rec,
          (pipelineFinal oracle tUpd tDone dest q rec).status = .failed) := by
  refine ⟨?_, ?_, ?_⟩
  · intro j h1
    rw [callOpenAI_eq, h1]
  · intro e₁ j h1 h2
    rw [callOpenAI_eq, h1, h2]
  · intro e₁ e₂ e₃ h1 h2 h3
    have hc : callOpenAI oracle = ⟨.error e₃, 3, [2, 4]⟩ := by
      rw [callOpenAI_eq, h1, h2, h3]
    refine ⟨hc, ?_⟩
    intro tUpd tDone dest q rec
    rw [pipelineFinal_of_error oracle tUpd tDone dest q rec e₃ (by rw [hc])]

/-- C1 witness: success on the 2nd attempt returns after 2 attempts
with the single delay of 2 seconds (no 3rd attempt). -/
theorem c1_retry_policy_witness :
    callOpenAI (fun n => if n == 2 then FetchOutcome.parsed .null
                         else FetchOutcome.noContent) =
      ⟨.ok .null, 2, [2]⟩ :=
  (c1_retry_policy _).2.1 "No content received from OpenAI" .null rfl rfl

/-- C2 counterexample: a model response whose `itinerary` is the empty
array passes `ItinerarySchema.parse`, so a 3-day job completes with an
itinerary of length 0 — the validation step does not enforce
`itinerary.length === durationDays` (nor 3 activities per day, nor
non-empty activity strings). -/
theorem c2_shape_counterexample :
    (pipelineFinal (fun _ => .parsed (.obj [("itinerary", .arr [])])) 1 2
        (.str "Paris") 3 (initialRecord (.str "Paris") 3 0)).status = .completed ∧
    jsonArrLength (pipelineFinal (fun _ => .parsed (.obj [("itinerary", .arr [])])) 1 2
        (.str "Paris") 3 (initialRecord (.str "Paris") 3 0)).itinerary = 0 ∧
    (pipelineFinal (fun _ => .parsed (.obj [("itinerary", .arr [])])) 1 2
        (.str "Paris") 3 (initialRecord (.str "Paris") 3 0)).durationDays = 3 ∧
    (0 : Rat) ≠ 3 :=
  ⟨rfl, rfl, rfl, by norm_num⟩

/-- C2 (amended): a job completes only when the model output's
`itinerary` field passes the structural Zod schema — an array of
objects each with a numeric `day`, a string `theme`, and an array of
activities each with string `time`/`description`/`location` — and the
completed record stores exactly that validated array; the schema does
not constrain the number of days against `durationDays`, the number of
activities per day, or non-emptiness of the strings. -/
theorem c2_completed_structural (oracle : Nat → FetchOutcome) (tUpd tDone : Nat)
    (dest : JSON) (q : Rat) (rec : JobRecord)
    (h : (pipelineFinal oracle tUpd tDone dest q rec).status = .completed) :
    ∃ days : List DayRec,
      (pipelineFinal oracle tUpd tDone dest q rec).itinerary = daysToJSON days := by
  cases hr : (callOpenAI oracle).result with
  | error e =>
      rw [pipelineFinal_of_error _ _ _ _ _ _ _ hr] at h
      simp at h
  | ok ai =>
      cases hv : validateItineraryData dest ai with
      | error e =>
          rw [pipelineFinal_of_invalid _ _ _ _ _ _ _ _ hr hv] at h
          simp at h
      | ok p =>
          obtain ⟨d, days⟩ := p
          exact ⟨days, by rw [pipelineFinal_of_valid _ _ _ _ _ _ _ _ _ hr hv]⟩

/-- C2 witness: a 1-day response with an empty activities array
completes, and the stored itinerary is the serialisation of the parsed
days. -/
theorem c2_completed_structural_witness :
    ∃ days : List DayRec,
      (pipelineFinal (fun _ => .parsed (.obj [("itinerary", .arr
          [.obj [("day", .num 1), ("theme", .str "Old Town"),
                 ("activities", .arr [])]])])) 5 6
        (.str "Rome") 1 (initialRecord (.str "Rome") 1 4)).itinerary =
        daysToJSON days :=
  c2_completed_structural _ 5 6 (.str "Rome") 1 (initialRecord (.str "Rome") 1 4) rfl

/-- C3: job status is monotonic.  (i) One pipeline run performs exactly
two writes — the `processing` update then a single terminal write whose
status is `completed` or `failed` — so no write follows a terminal
write and the status never reverts to `processing`.  (ii) `GET`
handlers (status reads, the API description, 404s) never modify the
store.  (iii) `POST /generate` only prepends a record under the freshly
generated job id, leaving the record of every other id untouched. -/
theorem c3_terminal_monotonic :
    (∀ (oracle : Nat → FetchOutcome) (tUpd tDone : Nat) (dest : JSON) (q : Rat)
        (rec : JobRecord),
      (processItinerary oracle tUpd tDone dest q rec).map JobRecord.status =
          [Status.processing, Status.completed] ∨
      (processItinerary oracle tUpd tDone dest q rec).map JobRecord.status =
          [Status.processing, Status.failed]) ∧
    (∀ (pathname : String) (bd : Option JSON) (store : Store) (now : Nat)
        (rand : String) (flag : Bool),
      (handleFetch ⟨.GET, pathname, bd⟩ store now rand flag).store = store) ∧
    (∀ (b : JSON) (store : Store) (now : Nat) (rand : String) (id : String),
      id ≠ generateJobId now rand →
      (handleGenerate b store now rand).store.lookup id = store.lookup id) := by
  refine ⟨?_, ?_, ?_⟩
  · intro oracle tUpd tDone dest q rec
    cases hr : (callOpenAI oracle).result with
    | error e => right; simp [processItinerary, hr]
    | ok ai =>
        cases hv : validateItineraryData dest ai with
        | error e => right; simp [processItinerary, hr, hv]
        | ok p =>
            obtain ⟨d, days⟩ := p
            left; simp [processItinerary, hr, hv]
  · intro pathname bd store now rand flag
    simp only [handleFetch,
      show (Method.GET == Method.OPTIONS) = false from rfl,
      show (Method.GET == Method.POST) = false from rfl,
      show (Method.GET == Method.GET) = true from rfl,
      Bool.false_and, Bool.true_and, Bool.false_eq_true, if_false]
    split <;> try rfl
    split <;> rfl
  · intro b store now rand id h
    have hbeq : (id == generateJobId now rand) = false :=
      beq_eq_false_iff_ne.mpr h
    cases b with
    | null => rfl
    | bool bb => rfl
    | num qq => rfl
    | str s => rfl
    | arr xs => rfl
    | obj fs =>
        simp only [handleGenerate]
        split
        all_goals try split
        all_goals try split
        all_goals first | rfl | simp [List.lookup, hbeq]

/-- C3 witness: a status read leaves the store unchanged, and a create
leaves a differently-named record's lookup unchanged. -/
theorem c3_terminal_monotonic_witness :
    (handleFetch ⟨.GET, "/status/job_1_x", none⟩ [] 0 "r" false).store = [] ∧
    (handleGenerate (.obj [("destination", .str "Paris"), ("durationDays", .num 3)])
        [] 7 "abcdefghi").store.lookup "job_0_other" = none :=
  ⟨c3_terminal_monotonic.2.1 "/status/job_1_x" none [] 0 "r" false,
   (c3_terminal_monotonic.2.2 (.obj [("destination", .str "Paris"),
      ("durationDays", .num 3)]) [] 7 "abcdefghi" "job_0_other" (by decide)).trans rfl⟩

/-- C4: whenever the pipeline leaves a job `failed`, the record's
`error` is a non-empty string (the failure's message), `completedAt`
carries the terminal write's timestamp, and `itinerary` is still the
empty array written at creation — the failure write stores no partial
itinerary (and also leaves `createdAt` at its creation value). -/
theorem c4_failed_record (oracle : Nat → FetchOutcome) (tUpd tDone t0 : Nat)
    (dest0 dest : JSON) (q : Rat)
    (h : (pipelineFinal oracle tUpd tDone dest q
            (initialRecord dest0 q t0)).status = .failed) :
    ∃ e, (pipelineFinal oracle tUpd tDone dest q
            (initialRecord dest0 q t0)).error = some e ∧ e ≠ "" ∧
      (pipelineFinal oracle tUpd tDone dest q
          (initialRecord dest0 q t0)).completedAt = some tDone ∧
      (pipelineFinal oracle tUpd tDone dest q
          (initialRecord dest0 q t0)).itinerary = .arr [] ∧
      (pipelineFinal oracle tUpd tDone dest q
          (initialRecord dest0 q t0)).createdAt = t0 := by
  cases hr : (callOpenAI oracle).result with
  | error e =>
      refine ⟨e, ?_⟩
      rw [pipelineFinal_of_error _ _ _ _ _ _ _ hr]
      exact ⟨rfl, callOpenAI_error_ne_empty oracle e hr, rfl, rfl, rfl⟩
  | ok ai =>
      cases hv : validateItineraryData dest ai with
      | error e =>
          refine ⟨e, ?_⟩
          rw [pipelineFinal_of_invalid _ _ _ _ _ _ _ _ hr hv]
          exact ⟨rfl, validate_error_ne_empty dest ai e hv, rfl, rfl, rfl⟩
      | ok p =>
          obtain ⟨d, days⟩ := p
          rw [pipelineFinal_of_valid _ _ _ _ _ _ _ _ _ hr hv] at h
          simp at h

/-- C4 witness: three failing model calls leave a failed record with a
non-empty error, the terminal timestamp, and the creation-time empty
itinerary. -/
theorem c4_failed_record_witness :
    ∃ e, (pipelineFinal (fun _ => FetchOutcome.noContent) 1 2 (.str "Kyoto") 5
            (initialRecord (.str "Kyoto") 5 0)).error = some e ∧ e ≠ "" ∧
      (pipelineFinal (fun _ => FetchOutcome.noContent) 1 2 (.str "Kyoto") 5
          (initialRecord (.str "Kyoto") 5 0)).completedAt = some 2 ∧
      (pipelineFinal (fun _ => FetchOutcome.noContent) 1 2 (.str "Kyoto") 5
          (initialRecord (.str "Kyoto") 5 0)).itinerary = .arr [] ∧
      (pipelineFinal (fun _ => FetchOutcome.noContent) 1 2 (.str "Kyoto") 5
          (initialRecord (.str "Kyoto") 5 0)).createdAt = 0 :=
  c4_failed_record (fun _ => FetchOutcome.noContent) 1 2 0 (.str "Kyoto")
    (.str "Kyoto") 5 rfl

/-- C10: a `POST /generate` request whose body is not valid JSON makes
`request.json()` throw inside the top-level try block, so the router
returns HTTP 500 with body `{"error": "Internal server error"}` (not
400), leaves the store unchanged (no job record created), and schedules
no pipeline run. -/
theorem c10_invalid_json_body (store : Store) (now : Nat) (rand : String)
    (statusFetchFails : Bool) :
    handleFetch ⟨.POST, "/generate", none⟩ store now rand statusFetchFails =
      ⟨⟨500, some (errorBody "Internal server error")⟩, store, none⟩ := by
  rfl

/-- C5: `POST /generate` returns HTTP 400 for `durationDays = 0` (falsy,
caught by the required-fields check), `durationDays = 31` (range check),
`durationDays = "three"` (type check), and a missing `destination`; and
for every non-empty destination string and numeric `durationDays` in
[1, 30] it returns HTTP 202 with the non-empty job id
`generateJobId now rand`. -/
theorem c5_generate_validation :
    (∀ (store : Store) (now : Nat) (rand : String) (flag : Bool),
      (handleFetch ⟨.POST, "/generate", some (.obj
          [("destination", .str "Paris"), ("durationDays", .num 0)])⟩
        store now rand flag).response.status = 400) ∧
    (∀ (store : Store) (now : Nat) (rand : String) (flag : Bool),
      (handleFetch ⟨.POST, "/generate", some (.obj
          [("destination", .str "Paris"), ("durationDays", .num 31)])⟩
        store now rand flag).response.status = 400) ∧
    (∀ (store : Store) (now : Nat) (rand : String) (flag : Bool),
      (handleFetch ⟨.POST, "/generate", some (.obj
          [("destination", .str "Paris"), ("durationDays", .str "three")])⟩
        store now rand flag).response.status = 400) ∧
    (∀ (store : Store) (now : Nat) (rand : String) (flag : Bool),
      (handleFetch ⟨.POST, "/generate", some (.obj
          [("durationDays", .num 3)])⟩ store now rand flag).response.status = 400) ∧
    (∀ (store : Store) (now : Nat) (rand : String) (flag : Bool) (dest : String)
        (q : Rat), dest ≠ "" → 1 ≤ q → q ≤ 30 →
      (handleFetch ⟨.POST, "/generate", some (.obj
          [("destination", .str dest), ("durationDays", .num q)])⟩
        store now rand flag).response =
        ⟨202, some (.obj [("jobId", .str (generateJobId now rand)),
                          ("message", .str "Itinerary generation started")])⟩ ∧
      generateJobId now rand ≠ "") := by
  refine ⟨fun _ _ _ _ => rfl, fun _ _ _ _ => rfl, fun _ _ _ _ => rfl,
    fun _ _ _ _ => rfl, ?_⟩
  intro store now rand flag dest q hdest h1 h30
  have hq0 : q ≠ 0 := by
    intro h0
    rw [h0] at h1
    norm_num at h1
  have hd : (dest != "") = true := bne_iff_ne.mpr hdest
  have hq : (q != 0) = true := bne_iff_ne.mpr hq0
  have hrange : ¬(q < 1 ∨ q > 30) := by
    rintro (hlt | hgt)
    · exact absurd h1 (not_le.mpr hlt)
    · exact absurd h30 (not_le.mpr hgt)
  constructor
  · show (handleGenerate (.obj [("destination", .str dest),
        ("durationDays", .num q)]) store now rand).response = _
    simp [handleGenerate, JSON.getField, List.lookup, truthy, hd, hq, hrange]
  · exact append_ne_empty_left _ _ (append_ne_empty_left _ _
      (append_ne_empty_left _ _ (by decide)))

/-- C5 witness: a valid request (`"Paris"`, 3 days) is accepted with a
202 response carrying the non-empty job id. -/
theorem c5_generate_validation_witness :
    (handleFetch ⟨.POST, "/generate", some (.obj
        [("destination", .str "Paris"), ("durationDays", .num 3)])⟩
      [] 5 "abc123def" false).response =
      ⟨202, some (.obj [("jobId", .str (generateJobId 5 "abc123def")),
                        ("message", .str "Itinerary generation started")])⟩ ∧
    generateJobId 5 "abc123def" ≠ "" :=
  c5_generate_validation.2.2.2.2 [] 5 "abc123def" false "Paris" 3
    (by decide) (by norm_num) (by norm_num)

/-- C6: `GET /status/{jobId}` returns 400 when the job-id path segment
is missing or empty, 404 with `{"error": "Job not found"}` when no
record exists under the id, and 200 with the full stored record
serialised verbatim when it does (whatever its status, including a
`processing` record with empty itinerary). -/
theorem c6_status_endpoint :
    (∀ (p : String) (store : Store) (now : Nat) (rand : String) (flag : Bool),
      jsStartsWith p "/status/" = true → (jsSplit p '/').getD 2 "" = "" →
      (handleFetch ⟨.GET, p, none⟩ store now rand flag).response =
        ⟨400, some (errorBody "Job ID is required")⟩) ∧
    (∀ (p jid : String) (store : Store) (now : Nat) (rand : String),
      jsStartsWith p "/status/" = true → (jsSplit p '/').getD 2 "" = jid →
      jid ≠ "" → store.lookup jid = none →
      (handleFetch ⟨.GET, p, none⟩ store now rand false).response =
        ⟨404, some (errorBody "Job not found")⟩) ∧
    (∀ (p jid : String) (r : JobRecord) (store : Store) (now : Nat) (rand : String),
      jsStartsWith p "/status/" = true → (jsSplit p '/').getD 2 "" = jid →
      jid ≠ "" → store.lookup jid = some r →
      (handleFetch ⟨.GET, p, none⟩ store now rand false).response =
        ⟨200, some (recordToJSON r)⟩) := by
  refine ⟨?_, ?_, ?_⟩
  · intro p store now rand flag hsw hseg
    rw [handleFetch_status_route p none store now rand flag hsw]
    simp only [handleStatus]
    rw [hseg]
    simp
  · intro p jid store now rand hsw hseg hjid hlk
    rw [handleFetch_status_route p none store now rand false hsw]
    simp only [handleStatus]
    rw [hseg]
    simp [beq_eq_false_iff_ne.mpr hjid, hlk]
  · intro p jid r store now rand hsw hseg hjid hlk
    rw [handleFetch_status_route p none store now rand false hsw]
    simp only [handleStatus]
    rw [hseg]
    simp [beq_eq_false_iff_ne.mpr hjid, hlk]

/-- C6 witness: `/status/` with no id → 400; `/status/unknown` on an
empty store → 404 `Job not found`; `/status/j1` with a stored
`processing` record → 200 with the record as JSON. -/
theorem c6_status_endpoint_witness :
    (handleFetch ⟨.GET, "/status/", none⟩ [] 0 "r" false).response =
      ⟨400, some (errorBody "Job ID is required")⟩ ∧
    (handleFetch ⟨.GET, "/status/unknown", none⟩ [] 0 "r" false).response =
      ⟨404, some (errorBody "Job not found")⟩ ∧
    (handleFetch ⟨.GET, "/status/j1", none⟩
        [("j1", initialRecord (.str "Oslo") 2 9)] 0 "r" false).response =
      ⟨200, some (recordToJSON (initialRecord (.str "Oslo") 2 9))⟩ :=
  ⟨c6_status_endpoint.1 "/status/" [] 0 "r" false (by decide) (by decide),
   c6_status_endpoint.2.1 "/status/unknown" "unknown" [] 0 "r"
     (by decide) (by decide) (by decide) rfl,
   c6_status_endpoint.2.2 "/status/j1" "j1" (initialRecord (.str "Oslo") 2 9)
     [("j1", initialRecord (.str "Oslo") 2 9)] 0 "r"
     (by decide) (by decide) (by decide) rfl⟩

/-- C7 counterexample: the router's check is
`typeof durationDays !== 'number' || < 1 || > 30`, so the non-integer
`durationDays = 3/2` is accepted (HTTP 202) and persisted — the stored
`durationDays` is not an integer. -/
theorem c7_noninteger_counterexample :
    (⟨3, 2, by decide, by decide⟩ : Rat) = 3/2 ∧
    (handleFetch ⟨.POST, "/generate", some (.obj
        [("destination", .str "Paris"),
         ("durationDays", .num ⟨3, 2, by decide, by decide⟩)])⟩
      [] 5 "abc" false).response.status = 202 ∧
    (handleFetch ⟨.POST, "/generate", some (.obj
        [("destination", .str "Paris"),
         ("durationDays", .num ⟨3, 2, by decide, by decide⟩)])⟩
      [] 5 "abc" false).store.map (fun kv => kv.2.durationDays) =
      [(⟨3, 2, by decide, by decide⟩ : Rat)] ∧
    (⟨3, 2, by decide, by decide⟩ : Rat).den ≠ 1 :=
  ⟨by apply Rat.ext <;> norm_num, rfl, rfl, by decide⟩

/-- C7 (amended): every request accepted by `POST /generate` (HTTP 202)
has a numeric `durationDays` in [1, 30] — not necessarily an integer —
and the persisted record stores that number unchanged. -/
theorem c7_duration_range (b : JSON) (store : Store) (now : Nat) (rand : String)
    (flag : Bool)
    (h : (handleFetch ⟨.POST, "/generate", some b⟩
            store now rand flag).response.status = 202) :
    ∃ q : Rat, b.getField "durationDays" = some (.num q) ∧ 1 ≤ q ∧ q ≤ 30 ∧
      (handleFetch ⟨.POST, "/generate", some b⟩ store now rand flag).store =
        (generateJobId now rand,
         initialRecord ((b.getField "destination").getD .null) q now) :: store := by
  have h' : (handleGenerate b store now rand).response.status = 202 := h
  cases b with
  | null => simp [handleGenerate, internalErrorResponse] at h'
  | bool bb => simp [handleGenerate, JSON.getField, truthy] at h'
  | num qq => simp [handleGenerate, JSON.getField, truthy] at h'
  | str s => simp [handleGenerate, JSON.getField, truthy] at h'
  | arr xs => simp [handleGenerate, JSON.getField, truthy] at h'
  | obj fs =>
      cases htd : truthy ((JSON.obj fs).getField "destination") with
      | false => simp [handleGenerate, htd] at h'
      | true =>
          cases htdd : truthy ((JSON.obj fs).getField "durationDays") with
          | false => simp [handleGenerate, htd, htdd] at h'
          | true =>
              cases hdd : (JSON.obj fs).getField "durationDays" with
              | none => rw [hdd] at htdd; simp [truthy] at htdd
              | some dv =>
                  rw [hdd] at htdd
                  cases dv with
                  | num q =>
                      by_cases hrange : q < 1 ∨ q > 30
                      · exfalso
                        revert h'
                        simp [handleGenerate, htd, htdd, hdd, hrange]
                      · refine ⟨q, rfl, not_lt.mp (not_or.mp hrange).1,
                          not_lt.mp (not_or.mp hrange).2, ?_⟩
                        show (handleGenerate (.obj fs) store now rand).store = _
                        simp [handleGenerate, htd, htdd, hdd, hrange]
                  | null =>
                      exfalso; revert h'
                      simp [handleGenerate, htd, htdd, hdd]
                  | bool bb =>
                      exfalso; revert h'
                      simp [handleGenerate, htd, htdd, hdd]
                  | str s =>
                      exfalso; revert h'
                      simp [handleGenerate, htd, htdd, hdd]
                  | arr xs =>
                      exfalso; revert h'
                      simp [handleGenerate, htd, htdd, hdd]
                  | obj fs2 =>
                      exfalso; revert h'
                      simp [handleGenerate, htd, htdd, hdd]

/-- C7 witness: the accepted request with `durationDays = 3` stores a
record with `durationDays = 3`, a number in [1, 30]. -/
theorem c7_duration_range_witness :
    ∃ q : Rat,
      JSON.getField (.obj [("destination", .str "Lima"), ("durationDays", .num 3)])
          "durationDays" = some (.num q) ∧ 1 ≤ q ∧ q ≤ 30 ∧
      (handleFetch ⟨.POST, "/generate", some (.obj
          [("destination", .str "Lima"), ("durationDays", .num 3)])⟩
        [] 8 "xyz" false).store =
        (generateJobId 8 "xyz",
         initialRecord ((JSON.getField (.obj [("destination", .str "Lima"),
             ("durationDays", .num 3)]) "destination").getD .null) q 8) :: [] :=
  c7_duration_range (.obj [("destination", .str "Lima"), ("durationDays", .num 3)])
    [] 8 "xyz" false rfl

/-- C8 counterexample: the success-path terminal write does not leave
`createdAt` at its creation value — `itineraryData` includes
`createdAt: FieldValue.serverTimestamp()`, so a job created at time 100
that completes at time 200 ends with `createdAt = 200`. -/
theorem c8_createdAt_counterexample :
    (pipelineFinal (fun _ => .parsed (.obj [("itinerary", .arr [])])) 150 200
        (.str "Paris") 3 (initialRecord (.str "Paris") 3 100)).status = .completed ∧
    (initialRecord (.str "Paris") 3 100).createdAt = 100 ∧
    (pipelineFinal (fun _ => .parsed (.obj [("itinerary", .arr [])])) 150 200
        (.str "Paris") 3 (initialRecord (.str "Paris") 3 100)).createdAt = 200 ∧
    (200 : Nat) ≠ 100 :=
  ⟨rfl, rfl, rfl, by decide⟩

/-- C8 (amended): the success-path terminal write stores the whole
validated `itineraryData` object: `status = completed`, the itinerary,
and `completedAt`, but also rewrites `destination` and `durationDays`
with their creation values, sets `error` to null, and overwrites
`createdAt` with a fresh completion-time server timestamp (it is NOT
left at the value stored at creation). -/
theorem c8_success_write_frame (oracle : Nat → FetchOutcome) (tUpd tDone : Nat)
    (rec : JobRecord)
    (h : (pipelineFinal oracle tUpd tDone rec.destination rec.durationDays
            rec).status = .completed) :
    (pipelineFinal oracle tUpd tDone rec.destination rec.durationDays
        rec).destination = rec.destination ∧
    (pipelineFinal oracle tUpd tDone rec.destination rec.durationDays
        rec).durationDays = rec.durationDays ∧
    (pipelineFinal oracle tUpd tDone rec.destination rec.durationDays
        rec).createdAt = tDone ∧
    (pipelineFinal oracle tUpd tDone rec.destination rec.durationDays
        rec).completedAt = some tDone ∧
    (pipelineFinal oracle tUpd tDone rec.destination rec.durationDays
        rec).error = none := by
  cases hr : (callOpenAI oracle).result with
  | error e =>
      rw [pipelineFinal_of_error _ _ _ _ _ _ _ hr] at h
      simp at h
  | ok ai =>
      cases hv : validateItineraryData rec.destination ai with
      | error e =>
          rw [pipelineFinal_of_invalid _ _ _ _ _ _ _ _ hr hv] at h
          simp at h
      | ok p =>
          obtain ⟨d, days⟩ := p
          rw [pipelineFinal_of_valid _ _ _ _ _ _ _ _ _ hr hv]
          refine ⟨?_, rfl, rfl, rfl, rfl⟩
          exact (validate_ok_destination _ _ _ _ hv).symm

/-- C8 witness: a concrete completing run keeps destination and
duration, and stamps both timestamps with the terminal write's time. -/
theorem c8_success_write_frame_witness :
    (pipelineFinal (fun _ => .parsed (.obj [("itinerary", .arr [])])) 11 12
        (initialRecord (.str "Bergen") 2 10).destination
        (initialRecord (.str "Bergen") 2 10).durationDays
        (initialRecord (.str "Bergen") 2 10)).destination =
      (initialRecord (.str "Bergen") 2 10).destination ∧
    (pipelineFinal (fun _ => .parsed (.obj [("itinerary", .arr [])])) 11 12
        (initialRecord (.str "Bergen") 2 10).destination
        (initialRecord (.str "Bergen") 2 10).durationDays
        (initialRecord (.str "Bergen") 2 10)).durationDays =
      (initialRecord (.str "Bergen") 2 10).durationDays ∧
    (pipelineFinal (fun _ => .parsed (.obj [("itinerary", .arr [])])) 11 12
        (initialRecord (.str "Bergen") 2 10).destination
        (initialRecord (.str "Bergen") 2 10).durationDays
        (initialRecord (.str "Bergen") 2 10)).createdAt = 12 ∧
    (pipelineFinal (fun _ => .parsed (.obj [("itinerary", .arr [])])) 11 12
        (initialRecord (.str "Bergen") 2 10).destination
        (initialRecord (.str "Bergen") 2 10).durationDays
        (initialRecord (.str "Bergen") 2 10)).completedAt = some 12 ∧
    (pipelineFinal (fun _ => .parsed (.obj [("itinerary", .arr [])])) 11 12
        (initialRecord (.str "Bergen") 2 10).destination
        (initialRecord (.str "Bergen") 2 10).durationDays
        (initialRecord (.str "Bergen") 2 10)).error = none :=
  c8_success_write_frame (fun _ => .parsed (.obj [("itinerary", .arr [])])) 11 12
    (initialRecord (.str "Bergen") 2 10) rfl

/-- C9 counterexample: a failure while fetching the job record in the
status handler is caught by that handler's inner catch, which returns
HTTP 500 with body `{"error": "Failed to fetch job status"}` — not the
claimed `{"error": "Internal server error"}`. -/
theorem c9_status_fetch_counterexample :
    (handleFetch ⟨.GET, "/status/abc", none⟩ [] 0 "r" true).response.status = 500 ∧
    (handleFetch ⟨.GET, "/status/abc", none⟩ [] 0 "r" true).response.body =
      some (errorBody "Failed to fetch job status") ∧
    "Failed to fetch job status" ≠ "Internal server error" :=
  ⟨rfl, rfl, by decide⟩

/-- C9 (amended): failures caught by the router's top-level catch (such
as an unparseable `POST /generate` body) return HTTP 500
`{"error": "Internal server error"}`, but a failure while fetching a
job record in the status handler is caught by that handler's inner
catch and returns HTTP 500 `{"error": "Failed to fetch job status"}`
instead. -/
theorem c9_internal_errors (store : Store) (now : Nat) (rand : String) :
    (∀ flag, handleFetch ⟨.POST, "/generate", none⟩ store now rand flag =
        ⟨⟨500, some (errorBody "Internal server error")⟩, store, none⟩) ∧
    (∀ p : String, jsStartsWith p "/status/" = true →
        (jsSplit p '/').getD 2 "" ≠ "" →
        (handleFetch ⟨.GET, p, none⟩ store now rand true).response =
          ⟨500, some (errorBody "Failed to fetch job status")⟩) := by
  refine ⟨fun _ => rfl, ?_⟩
  intro p hsw hseg
  rw [handleFetch_status_route p none store now rand true hsw]
  rw [List.getD_eq_getElem?_getD] at hseg
  simp [handleStatus, beq_eq_false_iff_ne.mpr hseg]

/-- C9 witness: both behaviours at concrete requests. -/
theorem c9_internal_errors_witness :
    handleFetch ⟨.POST, "/generate", none⟩ [] 3 "zz" true =
      ⟨⟨500, some (errorBody "Internal server error")⟩, [], none⟩ ∧
    (handleFetch ⟨.GET, "/status/xyz", none⟩ [] 3 "zz" true).response =
      ⟨500, some (errorBody "Failed to fetch job status")⟩ :=
  ⟨(c9_internal_errors [] 3 "zz").1 true,
   (c9_internal_errors [] 3 "zz").2 "/status/xyz" (by decide) (by decide)⟩

end CFW
